import Mathlib

/-!
Verification development for the `request_to_standard` data-standardization
pipeline.  The Python sources under `src/` are shallowly embedded below:
pandas cells become the inductive `Value`, DataFrames become associative
lists, and each Python function of the core modules
(`src/core/standardization.py`, `src/core/pipeline.py`,
`src/core/normalization.py`, `src/core/validation.py`) is translated into an
executable Lean definition of the same name (in `lowerCamelCase`).  Floats are
modelled by exact rationals, `uuid.uuid4()` by an explicit supply `gen : ℕ →
String` of fresh identifiers, and the LLM call by its observable outcome.
-/

namespace RTS

/-- A scalar cell value as it appears in a pandas row dictionary: a string, an
integer, the float `NaN`, or Python `None`.  (The pipeline's own code paths
only ever produce these shapes; genuine non-integral floats are out of scope
of the claims under verification.) -/
inductive Value where
  | str (s : String)
  | int (n : Int)
  | nan
  | none
deriving DecidableEq

/-- `pd.isna(v)`: true exactly on `NaN` and `None`. -/
def pyIsNA : Value → Bool
  | .nan => true
  | .none => true
  | _ => false

/-- Python truthiness of a scalar: `""` and `0` and `None` are falsy;
`float('nan')` is truthy. -/
def pyTruthy : Value → Bool
  | .str s => s ≠ ""
  | .int n => n ≠ 0
  | .nan => true
  | .none => false

/-- Python `str(v)` on a scalar: `str(None) = "None"`, `str(float('nan')) =
"nan"`, integers print in decimal with a leading `-` when negative (as
`toString : Int → String` does). -/
def pyStr : Value → String
  | .str s => s
  | .int n => toString n
  | .nan => "nan"
  | .none => "None"

/-- Whitespace-stripping on a character list (Python `str.strip()`), defined
structurally so that proofs can evaluate it. -/
def listTrim (cs : List Char) : List Char :=
  ((cs.dropWhile Char.isWhitespace).reverse.dropWhile Char.isWhitespace).reverse

/-- Splitting a character list on a separator (Python `str.split(sep)`),
defined structurally; empty pieces are kept. -/
def listSplitOn (sep : Char) (cs : List Char) : List (List Char) :=
  cs.foldr (fun c acc =>
    if c = sep then [] :: acc
    else match acc with
      | h :: t => (c :: h) :: t
      | [] => [[c]]) [[]]

/-- Joining string pieces with a separator (Python `sep.join(parts)`). -/
def listJoin (sep : List Char) (parts : List (List Char)) : List Char :=
  List.intercalate sep parts

/-- Value of a run of decimal digits; `Option.none` when the run is empty or
contains a non-digit. -/
def digitsVal (cs : List Char) : Option Nat :=
  if cs ≠ [] ∧ cs.all Char.isDigit then
    some (cs.foldl (fun n c => 10 * n + (c.toNat - 48)) 0)
  else
    Option.none

/-- Python `int(s)` on a string: strip whitespace, optional sign, then decimal
digits; any other shape raises, modelled as `Option.none`. -/
def parseIntStr (s : String) : Option Int :=
  match listTrim s.toList with
  | '+' :: rest => (digitsVal rest).map Int.ofNat
  | '-' :: rest => (digitsVal rest).map (fun n => -(n : Int))
  | t => (digitsVal t).map Int.ofNat

/-- Python `int(v)` on a scalar value: identity on integers, strict decimal
parse on strings, raises (modelled `Option.none`) on `NaN`, `None` and
non-numeric strings. -/
def pyInt : Value → Option Int
  | .int n => some n
  | .str s => parseIntStr s
  | _ => Option.none

/-- A non-NaN value of the float64 column produced by `pd.to_numeric`: a
finite value (modelled by an exact rational, per the global
floats-as-rationals convention) or one of the two infinities. -/
inductive PdNum where
  | fin (q : ℚ)
  | pinf
  | ninf
deriving DecidableEq

/-- Whether a `PdNum` is finite. -/
def PdNum.isFin : PdNum → Bool
  | .fin _ => true
  | _ => false

/-- Float negation on `PdNum`. -/
def PdNum.neg : PdNum → PdNum
  | .fin q => .fin (-q)
  | .pinf => .ninf
  | .ninf => .pinf

/-- Unsigned decimal mantissa with an optional fractional part
("3", "3.7", "3.", ".5"). -/
def parseMantissa (cs : List Char) : Option ℚ :=
  let ip := cs.takeWhile (· ≠ '.')
  let rest := cs.dropWhile (· ≠ '.')
  match rest with
  | [] => (digitsVal ip).map (fun n => (n : ℚ))
  | '.' :: fp =>
    if ip.all Char.isDigit ∧ fp.all Char.isDigit ∧ (ip ≠ [] ∨ fp ≠ []) then
      some ((ip.foldl (fun n c => 10 * n + (c.toNat - 48)) 0 : ℚ) +
        (fp.foldl (fun n c => 10 * n + (c.toNat - 48)) 0 : ℚ) / (10 : ℚ) ^ fp.length)
    else
      Option.none
  | _ => Option.none

/-- The optionally signed decimal exponent after an `e`/`E`. -/
def parseExpPart (cs : List Char) : Option Int :=
  match cs with
  | '+' :: r => (digitsVal r).map Int.ofNat
  | '-' :: r => (digitsVal r).map (fun n => -(n : Int))
  | r => (digitsVal r).map Int.ofNat

/-- Unsigned float literal as accepted by `pd.to_numeric`'s parser: an
infinity token (`inf`/`infinity`, any case) or a decimal mantissa with an
optional `e`/`E` exponent ("3", "3.7", ".5", "1e10", "2.5E-3"). -/
def parseUnsignedNumeric (cs : List Char) : Option PdNum :=
  if cs.map Char.toLower = "inf".toList ∨ cs.map Char.toLower = "infinity".toList then
    some PdNum.pinf
  else
    let mant := cs.takeWhile (fun c => c ≠ 'e' ∧ c ≠ 'E')
    let expPart := cs.dropWhile (fun c => c ≠ 'e' ∧ c ≠ 'E')
    match parseMantissa mant, expPart with
    | some q, [] => some (PdNum.fin q)
    | some q, _ :: etail =>
      (parseExpPart etail).map (fun ex =>
        PdNum.fin (if 0 ≤ ex then q * (10 : ℚ) ^ ex.toNat
                   else q / (10 : ℚ) ^ (-ex).toNat))
    | Option.none, _ => Option.none

/-- `pd.to_numeric(s, errors='coerce')` on a string: strip, optional sign,
then an unsigned float literal; anything else coerces to `NaN`
(`Option.none`). -/
def parseNumericStr (s : String) : Option PdNum :=
  match listTrim s.toList with
  | '+' :: rest => parseUnsignedNumeric rest
  | '-' :: rest => (parseUnsignedNumeric rest).map PdNum.neg
  | t => parseUnsignedNumeric t

/-- `pd.to_numeric(v, errors='coerce')` on one cell: numbers pass through,
numeric strings parse (including exponent and infinity forms), everything
else — missing values and non-numeric strings — coerces to `NaN`, modelled
as `Option.none`. -/
def pdToNumeric : Value → Option PdNum
  | .int n => some (.fin (n : ℚ))
  | .str s => parseNumericStr s
  | _ => Option.none

/-- Truncation toward zero of a finite float, the exact part of numpy's
`astype(int)` cast. -/
def truncQ (q : ℚ) : Int :=
  if 0 ≤ q then ⌊q⌋ else ⌈q⌉

/-- numpy's float64 → int64 cast on a finite value: exact truncation toward
zero inside the int64 range; outside it the C cast is platform-dependent,
modelled here by the x86 saturation value `INT64_MIN` (no claim theorem
depends on the out-of-range branch). -/
def astypeInt64 (q : ℚ) : Int :=
  if -(2 ^ 63) ≤ truncQ q ∧ truncQ q < 2 ^ 63 then truncQ q else -(2 ^ 63)

/-- A row of the dataset: a Python dict from column name to scalar value. -/
abbrev Row := List (String × Value)

/-- A record dictionary (output of `model_dump`): same shape as a row. -/
abbrev RecordDict := List (String × Value)

/-- The column mapping: source column name → target field name, in insertion
order (Python dicts preserve insertion order). -/
abbrev Mapping := List (String × String)

/-! ## `src/core/standardization.py` -/

/-- One per-field transformation rule as parsed from the LLM's JSON
(`rules[field]` in `_apply_rules_to_rag1/2`): `columna_origen` and
`transformacion` may be absent (`rule.get(...)`), `valor_por_defecto` is any
JSON scalar (absent modelled as `Value.none`, indistinguishable from JSON
`null` by the consuming code). -/
structure Rule where
  columna_origen : Option String
  transformacion : Option String
  valor_por_defecto : Value
deriving DecidableEq

/-- The rule set keyed by target field (`transformation_rules` /
`reglas_transformacion`). -/
abbrev RuleSet := List (String × Rule)

/-- `DataStandardization._apply_transformation(valor, transformacion,
valor_por_defecto, field_name)`.  Note the short-circuit: a `NaN`, `None` or
empty-string value returns the rule's default before the kind is even
inspected. -/
def applyTransformation (valor : Value) (transformacion : String)
    (valor_por_defecto : Value) : Value :=
  if pyIsNA valor ∨ valor = .str "" ∨ valor = .none then
    valor_por_defecto
  else if transformacion = "copiar_tal_cual" then
    (match valor with | .none => valor_por_defecto | v => .str (pyStr v))
  else if transformacion = "copiar_completo_sin_resumir" then
    (match valor with | .none => valor_por_defecto | v => .str (pyStr v))
  else if transformacion = "copiar_si_existe_sino_null" then
    (if pyTruthy valor then .str (pyStr valor) else .none)
  else if transformacion = "convertir_a_entero" then
    (match pyInt valor with
     | some n => .int n
     | Option.none =>
       if valor_por_defecto ≠ .none then valor_por_defecto else .int 0)
  else if transformacion = "separar_por_punto_coma_unir_con_coma" then
    (match valor with
     | .str s =>
       if s.toList.contains ';' then
         .str (String.mk (listJoin (", ".toList)
           ((listSplitOn ';' s.toList).map listTrim)))
       else if s.toList.contains ',' then
         .str (String.mk (listJoin (", ".toList)
           ((listSplitOn ',' s.toList).map listTrim)))
       else if pyTruthy (.str s) then .str s else valor_por_defecto
     | v => if pyTruthy v then .str (pyStr v) else valor_por_defecto)
  else
    (match valor with | .none => valor_por_defecto | v => .str (pyStr v))

/-- `DataStandardization._get_default_value(field, target_rag)`: the static
per-schema default table; unknown schema or field yields Python `None`. -/
def getDefaultValue (field : String) (target_rag : String) : Value :=
  if target_rag = "rag1" then
    if field = "articulo_id" then .str "ART-0000"
    else if field = "tipo" then .str "General"
    else if field = "numero" then .int 0
    else if field = "titulo" then .str "Sin título"
    else if field = "texto" then .str ""
    else if field = "image_caption" then .none
    else if field = "keywords" then .none
    else .none
  else if target_rag = "rag2" then
    if field = "descripcion" then .str ""
    else if field = "tipo" then .str "General"
    else if field = "servicio" then .str "Sin especificar"
    else if field = "categoria" then .str "General"
    else if field = "subcategoria" then .str "General"
    else if field = "fuente" then .str "csv"
    else .none
  else .none

/-- `DataStandardization._safe_get(record, mapping, field, default)`: find the
first source column mapped to `field`; if it names a key of the record and the
value is not `NaN`/`None`, return the value, else the default. -/
def safeGet (record : Row) (mapping : Mapping) (field : String)
    (default : Value) : Value :=
  match mapping.find? (fun kv => kv.2 == field) with
  | some kv =>
    if kv.1 ≠ "" then
      match List.lookup kv.1 record with
      | some v => if ¬ pyIsNA v then v else default
      | Option.none => default
    else default
  | Option.none => default

/-- `DataStandardization._safe_get_int(record, mapping, field, default)`:
`_safe_get` with the integer default, then Python `int(...)` with the default
on `ValueError`/`TypeError`. -/
def safeGetInt (record : Row) (mapping : Mapping) (field : String)
    (default : Int) : Int :=
  match pyInt (safeGet record mapping field (.int default)) with
  | some n => n
  | Option.none => default

/-- A transformed (not yet schema-validated) RAG1 record, the dict built by
`_apply_rules_to_rag1` / `_map_to_rag1`. -/
structure RAG1Record where
  id : String
  articulo_id : Value
  tipo : Value
  numero : Value
  titulo : Value
  texto : Value
  image_caption : Value
  keywords : Value
  embedding : Value
deriving DecidableEq

/-- A transformed (not yet schema-validated) RAG2 record, the dict built by
`_apply_rules_to_rag2` / `_map_to_rag2`. -/
structure RAG2Record where
  id : String
  descripcion : Value
  tipo : Value
  servicio : Value
  categoria : Value
  subcategoria : Value
  fuente : Value
  embedding : Value
deriving DecidableEq

/-- The per-field body of the loop in `_apply_rules_to_rag1/2`: if the rule
set has a rule for the field, read the source value (`record.get(col)` when
`columna_origen` is truthy, else `None`) and apply the transformation with the
rule's default; otherwise fall back to direct mapping with the static
per-schema default. -/
def fieldValue (record : Row) (rules : RuleSet) (mapping : Mapping)
    (target_rag : String) (field : String) : Value :=
  match List.lookup field rules with
  | some rule =>
    let valor : Value :=
      match rule.columna_origen with
      | some c => if c ≠ "" then (List.lookup c record).getD .none else .none
      | Option.none => .none
    applyTransformation valor (rule.transformacion.getD "copiar_tal_cual")
      rule.valor_por_defecto
  | Option.none =>
    safeGet record mapping field (getDefaultValue field target_rag)

/-- `DataStandardization._apply_rules_to_rag1(record, rules, column_mapping,
record_id)`. -/
def applyRulesToRag1 (record : Row) (rules : RuleSet) (mapping : Mapping)
    (record_id : String) : RAG1Record :=
  { id := record_id
    articulo_id := fieldValue record rules mapping "rag1" "articulo_id"
    tipo := fieldValue record rules mapping "rag1" "tipo"
    numero := fieldValue record rules mapping "rag1" "numero"
    titulo := fieldValue record rules mapping "rag1" "titulo"
    texto := fieldValue record rules mapping "rag1" "texto"
    image_caption := fieldValue record rules mapping "rag1" "image_caption"
    keywords := fieldValue record rules mapping "rag1" "keywords"
    embedding := .none }

/-- `DataStandardization._apply_rules_to_rag2(record, rules, column_mapping,
record_id)`. -/
def applyRulesToRag2 (record : Row) (rules : RuleSet) (mapping : Mapping)
    (record_id : String) : RAG2Record :=
  { id := record_id
    descripcion := fieldValue record rules mapping "rag2" "descripcion"
    tipo := fieldValue record rules mapping "rag2" "tipo"
    servicio := fieldValue record rules mapping "rag2" "servicio"
    categoria := fieldValue record rules mapping "rag2" "categoria"
    subcategoria := fieldValue record rules mapping "rag2" "subcategoria"
    fuente := fieldValue record rules mapping "rag2" "fuente"
    embedding := .none }

/-- A transformed record of either target schema. -/
inductive StdRecord where
  | r1 (r : RAG1Record)
  | r2 (r : RAG2Record)
deriving DecidableEq

/-- The generated `id` of a transformed record. -/
def StdRecord.recId : StdRecord → String
  | .r1 r => r.id
  | .r2 r => r.id

/-- `DataStandardization._apply_transformation_rules(data_records,
transformation_rules, column_mapping, target_rag)`.  `uuid.uuid4()` is
modelled by the supply `gen`: the iteration at index `idx` draws `gen idx`. -/
def applyTransformationRules (gen : ℕ → String) (data_records : List Row)
    (transformation_rules : RuleSet) (mapping : Mapping)
    (target_rag : String) : List StdRecord :=
  data_records.enum.map (fun p =>
    if target_rag = "rag1" then
      .r1 (applyRulesToRag1 p.2 transformation_rules mapping (gen p.1))
    else
      .r2 (applyRulesToRag2 p.2 transformation_rules mapping (gen p.1)))

/-- Zero-padded rendering of `f"ART{index:04d}"`. -/
def pad4 (n : ℕ) : String :=
  let s := toString n
  String.mk (List.replicate (4 - s.length) '0') ++ s

/-- `DataStandardization._map_to_rag1(record, mapping, index)`; the freshly
drawn uuid is passed in as `record_id`. -/
def mapToRag1 (record : Row) (mapping : Mapping) (index : ℕ)
    (record_id : String) : RAG1Record :=
  { id := record_id
    articulo_id := safeGet record mapping "articulo_id" (.str ("ART" ++ pad4 index))
    tipo := safeGet record mapping "tipo" (.str "General")
    numero := .int (safeGetInt record mapping "numero" (index : Int))
    titulo := safeGet record mapping "titulo" (.str "Sin título")
    texto := safeGet record mapping "texto" (.str "")
    image_caption := safeGet record mapping "image_caption" .none
    keywords := safeGet record mapping "keywords" .none
    embedding := .none }

/-- `DataStandardization._map_to_rag2(record, mapping, index)`; the freshly
drawn uuid is passed in as `record_id`. -/
def mapToRag2 (record : Row) (mapping : Mapping) (index : ℕ)
    (record_id : String) : RAG2Record :=
  { id := record_id
    descripcion := safeGet record mapping "descripcion"
      (.str ("Registro " ++ toString index))
    tipo := safeGet record mapping "tipo" (.str "General")
    servicio := safeGet record mapping "servicio" (.str "Sin especificar")
    categoria := safeGet record mapping "categoria" (.str "General")
    subcategoria := safeGet record mapping "subcategoria" (.str "General")
    fuente := safeGet record mapping "fuente" (.str "csv")
    embedding := .none }

/-- `DataStandardization._apply_direct_mapping(data_records, column_mapping,
target_rag)`: the no-LLM fallback path. -/
def applyDirectMapping (gen : ℕ → String) (data_records : List Row)
    (mapping : Mapping) (target_rag : String) : List StdRecord :=
  data_records.enum.map (fun p =>
    if target_rag = "rag1" then
      .r1 (mapToRag1 p.2 mapping p.1 (gen p.1))
    else
      .r2 (mapToRag2 p.2 mapping p.1 (gen p.1)))

/-- The observable outcome of the rule-inference LLM exchange in
`_transform_with_llm`: `Except.error e` models an exception raised by
`AzureOpenAIClient.chat_completion` (which wraps and re-raises every
client-side failure); `Except.ok Option.none` models a response on which
`json.loads` raises `JSONDecodeError`; `Except.ok (some rules)` models a
parsed response with `result.get("reglas_transformacion", {})` extracted. -/
abbrev LLMOutcome := Except String (Option RuleSet)

/-- `DataStandardization._transform_with_llm(data_records, target_rag,
column_mapping)`.  The `chat_completion` call sits outside the
`try/except json.JSONDecodeError` block, so a client exception propagates;
only a JSON parse failure is recovered by `_apply_direct_mapping`. -/
def transformWithLLM (llm : LLMOutcome) (gen : ℕ → String)
    (data_records : List Row) (mapping : Mapping) (target_rag : String) :
    Except String (List StdRecord) :=
  match llm with
  | .error e => .error e
  | .ok Option.none => .ok (applyDirectMapping gen data_records mapping target_rag)
  | .ok (some rules) =>
    .ok (applyTransformationRules gen data_records rules mapping target_rag)

/-- `DataStandardization._create_rag1_record(record, generate_embedding)`:
normalize the dict for Pydantic (`str(...)` coercions; `numero` through
`int(...)` unless `None`), then construct `RAG1Schema`, which enforces
`0 ≤ numero ≤ 32767`; any exception makes `standardize` skip the record
(`Option.none`).  `embedding` must be `None` (a `List[float]` never occurs in
this core and any other scalar would fail Pydantic validation). -/
def createRag1Record (r : RAG1Record) : Option RecordDict :=
  let numero? : Option Int :=
    if r.numero = .none then some 0 else pyInt r.numero
  match numero? with
  | Option.none => Option.none
  | some n =>
    if 0 ≤ n ∧ n ≤ 32767 ∧ r.embedding = .none then
      some [("id", .str r.id),
            ("articulo_id", .str (pyStr r.articulo_id)),
            ("tipo", .str (pyStr r.tipo)),
            ("numero", .int n),
            ("titulo", .str (pyStr r.titulo)),
            ("texto", .str (pyStr r.texto)),
            ("image_caption",
              if pyTruthy r.image_caption then .str (pyStr r.image_caption) else .none),
            ("keywords",
              if pyTruthy r.keywords then .str (pyStr r.keywords) else .none),
            ("embedding", .none)]
    else Option.none

/-- `DataStandardization._create_rag2_record(record, generate_embedding)`:
all fields are `str(...)`-coerced, so only a non-`None` embedding can fail. -/
def createRag2Record (r : RAG2Record) : Option RecordDict :=
  if r.embedding = .none then
    some [("id", .str r.id),
          ("descripcion", .str (pyStr r.descripcion)),
          ("tipo", .str (pyStr r.tipo)),
          ("servicio", .str (pyStr r.servicio)),
          ("categoria", .str (pyStr r.categoria)),
          ("subcategoria", .str (pyStr r.subcategoria)),
          ("fuente", .str (pyStr r.fuente)),
          ("embedding", .none)]
  else Option.none

/-- `DataStandardization.standardize(df, target_rag, column_mapping,
generate_embeddings)`: transform with the LLM rules (or fallback), then build
each schema record, skipping (`filterMap`) any record whose construction
raises.  An exception from the LLM call propagates out as `Except.error`. -/
def standardize (llm : LLMOutcome) (gen : ℕ → String)
    (data_records : List Row) (target_rag : String) (mapping : Mapping) :
    Except String (List RecordDict) :=
  match transformWithLLM llm gen data_records mapping target_rag with
  | .error e => .error e
  | .ok recs =>
    .ok (recs.filterMap (fun s =>
      match s with
      | .r1 r => createRag1Record r
      | .r2 r => createRag2Record r))

/-! ## `src/core/pipeline.py` — column mapper -/

/-- Python `str.lower()` (ASCII case folding suffices for the mapper's
keyword keys). -/
def pyLower (s : String) : String := String.mk (s.toList.map Char.toLower)

/-- Python `key in col` substring membership. -/
def strContains (key col : String) : Bool := decide (key.toList <:+: col.toList)

/-- The ordered RAG1 keyword table of `_generate_column_mapping` (its keys are
pairwise distinct, so the dict literal is the list itself). -/
def rag1MappingRules : Mapping :=
  [("articulo", "articulo_id"), ("article", "articulo_id"),
   ("doc_ref", "articulo_id"), ("doc_id", "articulo_id"),
   ("id", "articulo_id"), ("ref", "articulo_id"),
   ("tipo", "tipo"), ("type", "tipo"), ("category", "tipo"), ("categoria", "tipo"),
   ("numero", "numero"), ("num", "numero"), ("section", "numero"), ("seccion", "numero"),
   ("titulo", "titulo"), ("title", "titulo"), ("header", "titulo"),
   ("encabezado", "titulo"), ("name", "titulo"), ("nombre", "titulo"),
   ("body_content", "texto"), ("body", "texto"), ("content", "texto"),
   ("texto", "texto"), ("text", "texto"), ("contenido", "texto"),
   ("descripcion", "texto"), ("description", "texto"),
   ("detalle", "texto"), ("detail", "texto"),
   ("keywords", "keywords"), ("tags", "keywords"),
   ("palabras_clave", "keywords"), ("etiquetas", "keywords"),
   ("image_caption", "image_caption"), ("fig_desc", "image_caption"),
   ("caption", "image_caption"), ("figura", "image_caption")]

/-- The RAG2 keyword table exactly as the `mapping_rules` dict literal is
written in the source, duplicate keys included (`'categoria'` and
`'category'` each occur twice: first with value `'tipo'`, later with value
`'categoria'`). -/
def rag2MappingRulesRaw : Mapping :=
  [("body_content", "descripcion"), ("body", "descripcion"),
   ("descripcion", "descripcion"), ("description", "descripcion"),
   ("texto", "descripcion"), ("text", "descripcion"),
   ("contenido", "descripcion"), ("detalle", "descripcion"), ("detail", "descripcion"),
   ("tipo", "tipo"), ("type", "tipo"), ("category", "tipo"), ("categoria", "tipo"),
   ("servicio", "servicio"), ("service", "servicio"),
   ("categoria", "categoria"), ("category", "categoria"),
   ("subcategoria", "subcategoria"), ("subcategory", "subcategoria"),
   ("fuente", "fuente"), ("source", "fuente"), ("origen", "fuente")]

/-- Evaluation of a Python dict literal with duplicate keys: every key keeps
the position of its first occurrence but holds the value of its last
occurrence. -/
def pyDictDedup (l : Mapping) : Mapping :=
  l.foldl (fun acc kv =>
    if (List.lookup kv.1 acc).isSome then
      acc.map (fun kv' => if kv'.1 = kv.1 then (kv'.1, kv.2) else kv')
    else acc ++ [kv]) []

/-- The RAG2 rule table as the interpreter actually builds it. -/
def rag2MappingRules : Mapping := pyDictDedup rag2MappingRulesRaw

/-- The keyword phase of `StandardizationPipeline._generate_column_mapping`:
for each column, the first rule whose key is a substring of the lower-cased
column name assigns its target field; unmatched columns are left out. -/
def keywordPhase (rules : Mapping) (columns : List String) : Mapping :=
  columns.filterMap (fun col =>
    (rules.find? (fun kv => strContains kv.1 (pyLower col))).map
      (fun kv => (col, kv.2)))

/-- A column of the DataFrame: its name and its cell values in row order. -/
abbrev Df := List (String × List Value)

/-- `df[col].dropna().head(3)` then `.astype(str).str.len().mean()`: mean
string length of the first three non-null values, `Option.none` when there are
none. -/
def sampleMeanLen (vals : List Value) : Option ℚ :=
  let sample := (vals.filter (fun v => ¬ pyIsNA v)).take 3
  if sample.length > 0 then
    some (((sample.map (fun v => ((pyStr v).length : ℚ))).sum) / sample.length)
  else Option.none

/-- One iteration of the long-text auto-mapping loop of
`_generate_column_mapping`: a still-unmapped column whose sampled mean length
exceeds 50 is assigned to the schema's long-text field, provided no column
has claimed that field yet. -/
def autoMapStep (target_rag : String) (m : Mapping) (c : String × List Value) :
    Mapping :=
  if (List.lookup c.1 m).isSome then m
  else
    match sampleMeanLen c.2 with
    | some avg =>
      if avg > 50 then
        if target_rag = "rag1" ∧ ¬ (m.map (·.2)).contains "texto" then
          m ++ [(c.1, "texto")]
        else if target_rag = "rag2" ∧ ¬ (m.map (·.2)).contains "descripcion" then
          m ++ [(c.1, "descripcion")]
        else m
      else m
    | Option.none => m

/-- `StandardizationPipeline._generate_column_mapping(df, target_rag)`: the
keyword phase over the column names, then the long-text auto-mapping pass
over the columns in order. -/
def generateColumnMapping (df : Df) (target_rag : String) : Mapping :=
  let columns := df.map (·.1)
  let rules := if target_rag = "rag1" then rag1MappingRules else rag2MappingRules
  df.foldl (autoMapStep target_rag) (keywordPhase rules columns)

/-! ## `src/core/normalization.py` -/

/-- One cell of the `numero` pipeline after `fill` — the composite
`to_numeric`-coerce, `fillna(0)` and the float→int cast of a finite cell. -/
def numeroCellConvert (v : Value) : Value :=
  match (pdToNumeric v).getD (PdNum.fin 0) with
  | .fin q => Value.int (astypeInt64 q)
  | _ => Value.int 0

/-- The `numero` branch of `DataNormalization.infer_and_convert_types` at
column granularity:
`pd.to_numeric(col, errors='coerce').fillna(0).astype(int)` inside
`try/except (ValueError, TypeError): df_norm[col] = 0`.  Coercion and
`fillna` are per-cell; `astype(int)` raises `ValueError` when any cell is
still non-finite (an infinity survives `fillna`), in which case the except
branch assigns the scalar 0 to the whole column. -/
def numeroColumnConvert (vals : List Value) : List Value :=
  if vals.all (fun v => ((pdToNumeric v).getD (PdNum.fin 0)).isFin) then
    vals.map numeroCellConvert
  else
    vals.map (fun _ => Value.int 0)

/-- The string branch of `infer_and_convert_types`: `astype(str)` then
`replace('nan','').replace('None','')` (whole-cell replacement) applied to one
cell. -/
def strScrub (v : Value) : Value :=
  let s := pyStr v
  if s = "nan" ∨ s = "None" then .str "" else .str s

/-- `DataNormalization.infer_and_convert_types(df, column_mapping,
target_rag)`: per column, unmapped (or falsy-mapped) columns are untouched;
the column mapped to `numero` is integer-coerced; every other mapped column is
string-coerced and scrubbed. -/
def inferAndConvertTypes (df : Df) (mapping : Mapping)
    (_target_rag : String) : Df :=
  df.map (fun c =>
    match List.lookup c.1 mapping with
    | Option.none => c
    | some tf =>
      if tf = "" then c
      else if tf = "numero" then (c.1, numeroColumnConvert c.2)
      else (c.1, c.2.map strScrub))

/-! ## `src/core/validation.py` -/

/-- Pydantic `str` field check (v2 does not coerce numbers to strings). -/
def strFieldOk (r : RecordDict) (f : String) : Bool :=
  match List.lookup f r with
  | some (.str _) => true
  | _ => false

/-- Pydantic `Optional[str]` field: absent, `None`, or a string. -/
def optStrFieldOk (r : RecordDict) (f : String) : Bool :=
  match List.lookup f r with
  | Option.none => true
  | some (.str _) => true
  | some .none => true
  | _ => false

/-- Pydantic `Optional[List[float]]` embedding field: in the `Value` universe
only absence or `None` validates (a scalar string/number is rejected and a
float list never occurs in this core). -/
def embeddingFieldOk (r : RecordDict) (f : String) : Bool :=
  match List.lookup f r with
  | Option.none => true
  | some .none => true
  | _ => false

/-- Pydantic `int` field with `ge=0, le=32767` (lax mode coerces integral
strings, as `pyInt` does). -/
def numeroFieldOk (r : RecordDict) : Bool :=
  match List.lookup "numero" r with
  | some v =>
    (match pyInt v with
     | some n => decide (0 ≤ n ∧ n ≤ 32767)
     | Option.none => false)
  | Option.none => false

/-- `RAG1Schema(**record)` succeeds. -/
def rag1SchemaValid (r : RecordDict) : Bool :=
  strFieldOk r "id" && strFieldOk r "articulo_id" && strFieldOk r "tipo" &&
  numeroFieldOk r && strFieldOk r "titulo" && strFieldOk r "texto" &&
  optStrFieldOk r "image_caption" && optStrFieldOk r "keywords" &&
  embeddingFieldOk r "embedding"

/-- `RAG2Schema(**record)` succeeds. -/
def rag2SchemaValid (r : RecordDict) : Bool :=
  strFieldOk r "id" && strFieldOk r "descripcion" && strFieldOk r "tipo" &&
  strFieldOk r "servicio" && strFieldOk r "categoria" &&
  strFieldOk r "subcategoria" && strFieldOk r "fuente" &&
  embeddingFieldOk r "embedding"

/-- Schema construction succeeds for the chosen target. -/
def recordValid (target_rag : String) (r : RecordDict) : Bool :=
  if target_rag = "rag1" then rag1SchemaValid r else rag2SchemaValid r

/-- `DataValidation.validate(standardized_records, target_rag)`, returning
`(is_valid, confidence_score, errors)`.  The Pydantic exception text inside an
error entry is abstracted to the `f"Registro {idx}"` prefix the code formats
around it. -/
def validate (records : List RecordDict) (target_rag : String) :
    Bool × ℚ × List String :=
  if records.isEmpty then
    (false, 0, ["No hay registros para validar"])
  else
    let total := records.length
    let valid := records.countP (recordValid target_rag)
    let errors := records.enum.filterMap (fun p =>
      if recordValid target_rag p.2 then Option.none
      else some ("Registro " ++ toString p.1))
    let confidence : ℚ := if total > 0 then (valid : ℚ) / (total : ℚ) else 0
    (decide ((0.8 : ℚ) ≤ confidence), confidence, errors)

/-- The integrity dict of `DataValidation._check_integrity`; keys that the
code only sometimes writes are modelled as `Option`s. -/
structure Integrity where
  status : String
  completeness_rate : Option ℚ
  complete_records : Option ℕ
  total_records : Option ℕ
  missing_fields : List (String × ℕ)
  description_warnings : Option (List String)
deriving DecidableEq

/-- The required-field lists of `_check_integrity`. -/
def requiredFields (target_rag : String) : List String :=
  if target_rag = "rag1" then
    ["id", "articulo_id", "tipo", "numero", "titulo", "texto"]
  else
    ["id", "descripcion", "tipo", "servicio", "categoria", "subcategoria", "fuente"]

/-- `field not in record or record[field] is None or record[field] == ""`
(note `NaN` does not count as missing here). -/
def fieldMissing (r : RecordDict) (f : String) : Bool :=
  match List.lookup f r with
  | Option.none => true
  | some v => v = .none ∨ v = .str ""

/-- A record with every required field present and non-empty. -/
def recordComplete (required : List String) (r : RecordDict) : Bool :=
  required.all (fun f => ¬ fieldMissing r f)

/-- The designated descriptive field inspected independently of the schema. -/
def descriptionField (target_rag : String) : String :=
  if target_rag = "rag1" then "texto" else "descripcion"

/-- `DataValidation._check_integrity(records, target_rag)`. -/
def checkIntegrity (records : List RecordDict) (target_rag : String) :
    Integrity :=
  if records.isEmpty then
    { status := "empty", completeness_rate := Option.none,
      complete_records := Option.none, total_records := Option.none,
      missing_fields := [], description_warnings := Option.none }
  else
    let required := requiredFields target_rag
    let complete := records.countP (recordComplete required)
    let missing := (required.map (fun f =>
      (f, records.countP (fun r => fieldMissing r f)))).filter (fun p => p.2 > 0)
    let df := descriptionField target_rag
    let emptyDesc := records.countP (fun r =>
      match List.lookup df r with
      | some v => v = .none ∨ v = .str ""
      | Option.none => false)
    let shortDesc := records.countP (fun r =>
      match List.lookup df r with
      | some (Value.str s) => s ≠ "" ∧ s.length < 20
      | _ => false)
    let warnings :=
      (if emptyDesc > 0 then
        [toString emptyDesc ++ " registros tienen descripción/texto vacío"] else []) ++
      (if shortDesc > 0 then
        [toString shortDesc ++ " registros tienen descripción/texto muy corto (< 20 caracteres)"] else [])
    let rate : ℚ := (complete : ℚ) / (records.length : ℚ)
    let status0 := if (0.9 : ℚ) ≤ rate then "good" else "needs_review"
    { status := if warnings ≠ [] ∧ (0.9 : ℚ) ≤ rate then "needs_review" else status0
      completeness_rate := some rate
      complete_records := some complete
      total_records := some records.length
      missing_fields := missing
      description_warnings := if warnings ≠ [] then some warnings else Option.none }

/-- The dict returned by `DataValidation.validate_structure`. -/
structure ValidationResult where
  is_valid : Bool
  confidence_score : ℚ
  errors : List String
  total_records : ℕ
  valid_records : Int
  integrity : Integrity
deriving DecidableEq

/-- `DataValidation.validate_structure(standardized_records, target_rag)`;
`valid_records` is the derived `int(total * confidence)`, not a recount. -/
def validateStructure (records : List RecordDict) (target_rag : String) :
    ValidationResult :=
  let r := validate records target_rag
  { is_valid := r.1
    confidence_score := r.2.1
    errors := r.2.2
    total_records := records.length
    valid_records := truncQ ((records.length : ℚ) * r.2.1)
    integrity := checkIntegrity records target_rag }

/-- Python `round(q, 3)` modelled over exact rationals (round to the nearest
thousandth; an exact tie — which the pipeline's formulas never hit on the
claims' inputs — rounds up here where float banker's rounding could differ). -/
def roundPy3 (q : ℚ) : ℚ := ((round (q * 1000) : ℤ) : ℚ) / 1000

/-- `DataValidation.calculate_quality_score(validation_result)`:
`confidence_score` is always present in a `validate_structure` result;
`completeness_rate` defaults to 0 when the integrity dict lacks it. -/
def calculateQualityScore (vr : ValidationResult) : ℚ :=
  let confidence := vr.confidence_score
  let completeness := vr.integrity.completeness_rate.getD 0
  roundPy3 (confidence * (0.6 : ℚ) + completeness * (0.4 : ℚ))

/-! ## `src/core/pipeline.py` — transform/validate/respond -/

/-- The caller-visible core of `StandardizationResponse`: the `success` flag
and the blended `confidence_score` surfaced in `result`. -/
structure StdResponse where
  success : Bool
  confidence_score : ℚ
deriving DecidableEq

/-- The STEP-6 / response-assembly block of `StandardizationPipeline.process`
(pipeline.py lines 109-159): validate the standardized records, compute the
quality score, and build the response with
`success = validation_result["is_valid"]`.  In the committed program this
block is unreachable — see `pipelineProcessStep5`. -/
def buildResponse (recs : List RecordDict) (target_rag : String) :
    StdResponse :=
  let vr := validateStructure recs target_rag
  { success := vr.is_valid, confidence_score := calculateQualityScore vr }

/-- The `TypeError` message CPython raises for the STEP-5 call (newer Python
versions prefix the method's qualified name). -/
def standardizeArityError : String :=
  "standardize() takes from 4 to 5 positional arguments but 6 were given"

/-- `StandardizationPipeline.process` from STEP 5 on, as committed: the call
at pipeline.py line 100 passes five positional arguments (`df_normalized`,
`target_rag`, `column_mapping`, `generate_embeddings`, `images_by_row`) to
`DataStandardization.standardize(self, df, target_rag, column_mapping,
generate_embeddings=False)`, which accepts at most four.  Python raises
`TypeError` at the call itself — before the LLM is contacted and before
`standardize`'s body runs — and the orchestrator's except-block re-raises it
as `Exception(f"Error en pipeline: {e}")`.  The LLM outcome, the rows and the
mapping therefore never influence the result. -/
def pipelineProcessStep5 (_llm : LLMOutcome) (_gen : ℕ → String)
    (_rows : List Row) (_mapping : Mapping) (_target_rag : String) :
    Except String StdResponse :=
  Except.error ("Error en pipeline: " ++ standardizeArityError)

/-! ## Auxiliary definitions and concrete fixtures used by the theorems -/

/-- The value `_safe_get` takes from the row when the mapping resolves `field`
to a present, non-null source column (`Option.none` exactly when `_safe_get`
falls back to its default argument). -/
def mappedValue (record : Row) (mapping : Mapping) (field : String) :
    Option Value :=
  match mapping.find? (fun kv => kv.2 == field) with
  | some kv =>
    if kv.1 ≠ "" then
      match List.lookup kv.1 record with
      | some v => if ¬ pyIsNA v then some v else Option.none
      | Option.none => Option.none
    else Option.none
  | Option.none => Option.none

/-- A RAG1 record dict whose schema validity is controlled by `numero`. -/
def sampleRag1Record (n : Int) : RecordDict :=
  [("id", .str "u"), ("articulo_id", .str "A"), ("tipo", .str "t"),
   ("numero", .int n), ("titulo", .str "T"), ("texto", .str "some long enough text")]

/-- Ten records of which exactly the first eight construct as `RAG1Schema`
(`numero ≤ 32767`). -/
def c5Records : List RecordDict :=
  [sampleRag1Record 1, sampleRag1Record 2, sampleRag1Record 3, sampleRag1Record 4,
   sampleRag1Record 5, sampleRag1Record 6, sampleRag1Record 7, sampleRag1Record 8,
   sampleRag1Record 40000, sampleRag1Record 50000]

/-- A schema-valid, complete RAG1 record. -/
def c6CompleteRecord : RecordDict :=
  [("id", .str "u1"), ("articulo_id", .str "A1"), ("tipo", .str "t"),
   ("numero", .int 1), ("titulo", .str "T"), ("texto", .str "a sufficiently long text")]

/-- A schema-valid RAG1 record whose required `texto` is empty (counts as
incomplete for the integrity check but still constructs). -/
def c6IncompleteRecord : RecordDict :=
  [("id", .str "u2"), ("articulo_id", .str "A2"), ("tipo", .str "t"),
   ("numero", .int 2), ("titulo", .str "T2"), ("texto", .str "")]

/-- Two records: confidence 1, completeness 1/2. -/
def c6Records : List RecordDict := [c6CompleteRecord, c6IncompleteRecord]

/-- Row and mapping on which every long-text-relevant field of a RAG1/RAG2
record resolves through the mapping. -/
def c3WitnessRow : Row := [("a", .str "X"), ("n", .int 5), ("d", .str "Y")]

/-- Mapping for `c3WitnessRow`. -/
def c3WitnessMapping : Mapping :=
  [("a", "articulo_id"), ("n", "numero"), ("d", "descripcion")]

/-- Columns for the C8 witness: one unmapped, one mapped to `numero`, one
mapped to another field. -/
def c8Df : Df :=
  [("a", [.nan, .str "x"]), ("n", [.str "7", .str "abc", .nan]),
   ("t", [.nan, .str "ok"])]

/-- Mapping for `c8Df`. -/
def c8Mapping : Mapping := [("n", "numero"), ("t", "titulo")]

/-- The schema's designated long-text field (`texto` for RAG1, `descripcion`
for RAG2). -/
def longTextField (target_rag : String) : String :=
  if target_rag = "rag1" then "texto" else "descripcion"

/-- One column, unmatched by every RAG1 keyword, holding a 60-character value
(triggers the long-text auto-mapping heuristic). -/
def c2WitnessDf : Df := [("notes", [.str (String.mk (List.replicate 60 'a'))])]

/-- The first thirteen entries of the evaluated RAG2 rule table, ending with
the `categoria` key; every value here is `descripcion`, `tipo` or
`categoria`. -/
def rag2RulesHead : Mapping :=
  [("body_content", "descripcion"), ("body", "descripcion"),
   ("descripcion", "descripcion"), ("description", "descripcion"),
   ("texto", "descripcion"), ("text", "descripcion"),
   ("contenido", "descripcion"), ("detalle", "descripcion"), ("detail", "descripcion"),
   ("tipo", "tipo"), ("type", "tipo"), ("category", "categoria"),
   ("categoria", "categoria")]

/-- The remaining seven entries of the evaluated RAG2 rule table. -/
def rag2RulesTail : Mapping :=
  [("servicio", "servicio"), ("service", "servicio"),
   ("subcategoria", "subcategoria"), ("subcategory", "subcategoria"),
   ("fuente", "fuente"), ("source", "fuente"), ("origen", "fuente")]

/-! ## Helper lemmas -/

/-- `_safe_get` returns the mapping-resolved value when there is one, else the
default. -/
theorem safeGet_eq_mappedValue (record : Row) (mapping : Mapping)
    (field : String) (default : Value) :
    safeGet record mapping field default =
      (mappedValue record mapping field).getD default := by
  unfold safeGet mappedValue
  cases h : mapping.find? (fun kv => kv.2 == field) with
  | none => rfl
  | some kv =>
    by_cases h1 : kv.1 = ""
    · simp [h1]
    · simp only [h1, ne_eq, not_false_eq_true, if_true]
      cases h2 : List.lookup kv.1 record with
      | none => rfl
      | some v => by_cases h3 : pyIsNA v <;> simp [h3]

/-- With an empty rule set, every field of `_apply_rules_to_rag1/2` falls back
to direct mapping with the static default. -/
theorem fieldValue_nil (record : Row) (mapping : Mapping) (target_rag f : String) :
    fieldValue record [] mapping target_rag f =
      safeGet record mapping f (getDefaultValue f target_rag) := rfl

/-! ## Claim theorems -/

/-- C4, counterexample: an empty-string source value under
`copiar_si_existe_sino_null` yields the rule's default (here `"D"`), not
`null`, refuting the claim that a null/missing/empty source yields null. -/
theorem copy_if_exists_empty_cex :
    applyTransformation (Value.str "") "copiar_si_existe_sino_null"
        (Value.str "D") = Value.str "D" ∧
      (Value.str "D" : Value) ≠ Value.none := by decide

/-- C4, amended: `copiar_si_existe_sino_null` stringifies a truthy value and
yields null for a falsy one only when the value survives the short-circuit;
a `NaN`/`None`/empty-string source value yields the rule's default instead. -/
theorem copy_if_exists_amended (v default : Value) :
    (pyIsNA v = true ∨ v = Value.str "" →
      applyTransformation v "copiar_si_existe_sino_null" default = default) ∧
    (pyIsNA v = false → v ≠ Value.str "" →
      applyTransformation v "copiar_si_existe_sino_null" default =
        (if pyTruthy v then Value.str (pyStr v) else Value.none)) := by
  constructor
  · intro h
    cases v <;> simp_all [applyTransformation, pyIsNA]
  · intro h1 h2
    cases v <;> simp_all [applyTransformation, pyIsNA, pyTruthy, pyStr]

/-- C4, witness: the amended theorem at the concrete inputs `""` (default
taken) and `0` (falsy but non-empty: null taken). -/
theorem copy_if_exists_witness :
    applyTransformation (Value.str "") "copiar_si_existe_sino_null"
        (Value.str "D") = Value.str "D" ∧
    applyTransformation (Value.int 0) "copiar_si_existe_sino_null"
        (Value.str "D") = Value.none := by
  refine ⟨(copy_if_exists_amended (Value.str "") (Value.str "D")).1 (Or.inr rfl), ?_⟩
  have h := (copy_if_exists_amended (Value.int 0) (Value.str "D")).2 (by decide) (by decide)
  simpa using h

/-- C3, counterexample: on a one-row dataset with an empty mapping, the LLM
parse-failure fallback (`_apply_direct_mapping`) gives `articulo_id =
"ART0000"` (row-index default) while the empty-rule-set path gives the static
default `"ART-0000"`, so the two paths are not field-wise equal. -/
theorem fallback_defaults_differ_cex :
    applyDirectMapping (fun _ => "u") [[]] [] "rag1" =
      [StdRecord.r1 ⟨"u", Value.str "ART0000", Value.str "General", Value.int 0,
        Value.str "Sin título", Value.str "", Value.none, Value.none, Value.none⟩] ∧
    applyTransformationRules (fun _ => "u") [[]] [] [] "rag1" =
      [StdRecord.r1 ⟨"u", Value.str "ART-0000", Value.str "General", Value.int 0,
        Value.str "Sin título", Value.str "", Value.none, Value.none, Value.none⟩] ∧
    (Value.str "ART0000" : Value) ≠ Value.str "ART-0000" := by decide

/-- C3, amended: per row and field, the parse-failure fallback path agrees
with the empty-rule-set path on every field except the generated `id` and the
fields with index-dependent fallback defaults (`articulo_id` and `numero` for
RAG1, `descripcion` for RAG2); those agree whenever the mapping resolves them
to a present non-null value (for `numero`, an integer value). -/
theorem fallback_vs_empty_rules_amended (record : Row) (mapping : Mapping)
    (idx : ℕ) (id1 id2 : String) :
    ((mapToRag1 record mapping idx id1).tipo =
        (applyRulesToRag1 record [] mapping id2).tipo ∧
      (mapToRag1 record mapping idx id1).titulo =
        (applyRulesToRag1 record [] mapping id2).titulo ∧
      (mapToRag1 record mapping idx id1).texto =
        (applyRulesToRag1 record [] mapping id2).texto ∧
      (mapToRag1 record mapping idx id1).image_caption =
        (applyRulesToRag1 record [] mapping id2).image_caption ∧
      (mapToRag1 record mapping idx id1).keywords =
        (applyRulesToRag1 record [] mapping id2).keywords ∧
      (mapToRag1 record mapping idx id1).embedding =
        (applyRulesToRag1 record [] mapping id2).embedding) ∧
    (∀ v, mappedValue record mapping "articulo_id" = some v →
      (mapToRag1 record mapping idx id1).articulo_id =
        (applyRulesToRag1 record [] mapping id2).articulo_id) ∧
    (∀ n : Int, mappedValue record mapping "numero" = some (Value.int n) →
      (mapToRag1 record mapping idx id1).numero =
        (applyRulesToRag1 record [] mapping id2).numero) ∧
    ((mapToRag2 record mapping idx id1).tipo =
        (applyRulesToRag2 record [] mapping id2).tipo ∧
      (mapToRag2 record mapping idx id1).servicio =
        (applyRulesToRag2 record [] mapping id2).servicio ∧
      (mapToRag2 record mapping idx id1).categoria =
        (applyRulesToRag2 record [] mapping id2).categoria ∧
      (mapToRag2 record mapping idx id1).subcategoria =
        (applyRulesToRag2 record [] mapping id2).subcategoria ∧
      (mapToRag2 record mapping idx id1).fuente =
        (applyRulesToRag2 record [] mapping id2).fuente ∧
      (mapToRag2 record mapping idx id1).embedding =
        (applyRulesToRag2 record [] mapping id2).embedding) ∧
    (∀ v, mappedValue record mapping "descripcion" = some v →
      (mapToRag2 record mapping idx id1).descripcion =
        (applyRulesToRag2 record [] mapping id2).descripcion) := by
  refine ⟨⟨rfl, rfl, rfl, rfl, rfl, rfl⟩, ?_, ?_, ⟨rfl, rfl, rfl, rfl, rfl, rfl⟩, ?_⟩
  · intro v h
    show safeGet record mapping "articulo_id" (.str ("ART" ++ pad4 idx)) =
      fieldValue record [] mapping "rag1" "articulo_id"
    rw [fieldValue_nil, safeGet_eq_mappedValue, safeGet_eq_mappedValue, h]
    rfl
  · intro n h
    show Value.int (safeGetInt record mapping "numero" (idx : Int)) =
      fieldValue record [] mapping "rag1" "numero"
    rw [fieldValue_nil]
    unfold safeGetInt
    rw [safeGet_eq_mappedValue, safeGet_eq_mappedValue, h]
    rfl
  · intro v h
    show safeGet record mapping "descripcion" (.str ("Registro " ++ toString idx)) =
      fieldValue record [] mapping "rag2" "descripcion"
    rw [fieldValue_nil, safeGet_eq_mappedValue, safeGet_eq_mappedValue, h]
    rfl

/-- C3, witness: the amended theorem applied on a row where `articulo_id`,
`numero` and `descripcion` all resolve through the mapping. -/
theorem fallback_vs_empty_rules_witness :
    (mapToRag1 c3WitnessRow c3WitnessMapping 3 "i").articulo_id =
      (applyRulesToRag1 c3WitnessRow [] c3WitnessMapping "j").articulo_id ∧
    (mapToRag1 c3WitnessRow c3WitnessMapping 3 "i").numero =
      (applyRulesToRag1 c3WitnessRow [] c3WitnessMapping "j").numero ∧
    (mapToRag2 c3WitnessRow c3WitnessMapping 3 "i").descripcion =
      (applyRulesToRag2 c3WitnessRow [] c3WitnessMapping "j").descripcion := by
  obtain ⟨-, h2, h3, -, h5⟩ :=
    fallback_vs_empty_rules_amended c3WitnessRow c3WitnessMapping 3 "i" "j"
  exact ⟨h2 (Value.str "X") (by decide), h3 5 (by decide),
    h5 (Value.str "Y") (by decide)⟩

/-- C1, counterexample: the failure is not recovered locally — a client-side
exception from `chat_completion` (the LLM unreachable) propagates out of the
Rule-Inference/standardization step as an error instead of yielding
fallback-transformed records; and at the pipeline level no request returns a
normal response at all (even with a recoverable malformed-JSON outcome),
because `process` raises `TypeError` at the STEP-5 call before the LLM is
ever contacted. -/
theorem llm_exception_fatal_cex :
    standardize
        (Except.error "Error en Azure OpenAI chat completion: connection error")
        (fun _ => "u") [] "rag1" [] =
      Except.error "Error en Azure OpenAI chat completion: connection error" ∧
    pipelineProcessStep5 (Except.ok Option.none) (fun _ => "u") [] [] "rag1" =
      Except.error ("Error en pipeline: " ++ standardizeArityError) :=
  ⟨rfl, rfl⟩

/-- C1, amended: within `DataStandardization.standardize`, only a
malformed-JSON LLM response is recovered locally — the step yields no rules
and proceeds via the direct-mapping fallback for every row, returning
normally; a client-side exception from the LLM call is not caught there and
propagates (the orchestrator re-raises any exception as fatal).  Moreover the
committed program never reaches either path: `process` passes five positional
arguments to the four-parameter `standardize`, so every request fails with
`TypeError` before the LLM call. -/
theorem llm_failure_recovery_amended (gen : ℕ → String) (rows : List Row)
    (mapping : Mapping) (target_rag : String) (e : String) :
    standardize (Except.ok Option.none) gen rows target_rag mapping =
      Except.ok ((applyDirectMapping gen rows mapping target_rag).filterMap
        (fun s => match s with
          | .r1 r => createRag1Record r
          | .r2 r => createRag2Record r)) ∧
    standardize (Except.error e) gen rows target_rag mapping = Except.error e ∧
    pipelineProcessStep5 (Except.ok Option.none) gen rows mapping target_rag =
      Except.error ("Error en pipeline: " ++ standardizeArityError) :=
  ⟨rfl, rfl, rfl⟩

/-- C5: the validator's `confidence_score` is `valid_count / total_count`
(0 on an empty list), `is_valid` holds exactly when the score is at least 0.8,
and on ten records of which exactly eight construct, the score is exactly 0.8
and the batch counts as valid (boundary case). -/
theorem validate_confidence_spec :
    (∀ (records : List RecordDict) (target_rag : String),
      (validate records target_rag).2.1 =
        if records.length = 0 then 0
        else (records.countP (recordValid target_rag) : ℚ) / (records.length : ℚ)) ∧
    (∀ (records : List RecordDict) (target_rag : String),
      ((validate records target_rag).1 = true ↔
        (0.8 : ℚ) ≤ (validate records target_rag).2.1)) ∧
    c5Records.length = 10 ∧
    c5Records.countP (recordValid "rag1") = 8 ∧
    (validate c5Records "rag1").2.1 = 0.8 ∧
    (validate c5Records "rag1").1 = true := by
  have hconf : ∀ (records : List RecordDict) (target_rag : String),
      (validate records target_rag).2.1 =
        if records.length = 0 then 0
        else (records.countP (recordValid target_rag) : ℚ) / (records.length : ℚ) := by
    intro records target_rag
    cases records with
    | nil => simp [validate]
    | cons a l => simp [validate]
  have hiff : ∀ (records : List RecordDict) (target_rag : String),
      ((validate records target_rag).1 = true ↔
        (0.8 : ℚ) ≤ (validate records target_rag).2.1) := by
    intro records target_rag
    cases records with
    | nil => simp [validate]; norm_num
    | cons a l => simp [validate]
  have h8 : c5Records.countP (recordValid "rag1") = 8 := by decide
  have hlen : c5Records.length = 10 := by decide
  have hc : (validate c5Records "rag1").2.1 = 0.8 := by
    rw [hconf, hlen, h8]; norm_num
  refine ⟨hconf, hiff, hlen, h8, hc, ?_⟩
  rw [hiff, hc]

/-- C6: the blended quality score is
`round(0.6 * confidence_score + 0.4 * completeness_rate, 3)` for every
validation result the pipeline produces, and confidence 1 with completeness
1/2 yields exactly 0.8. -/
theorem quality_score_spec :
    (∀ (records : List RecordDict) (target_rag : String),
      calculateQualityScore (validateStructure records target_rag) =
        roundPy3
          ((records.countP (recordValid target_rag) : ℚ) / (records.length : ℚ) * 0.6 +
           (records.countP (recordComplete (requiredFields target_rag)) : ℚ) /
              (records.length : ℚ) * 0.4)) ∧
    (validateStructure c6Records "rag1").confidence_score = 1 ∧
    (validateStructure c6Records "rag1").integrity.completeness_rate = some (1 / 2 : ℚ) ∧
    calculateQualityScore (validateStructure c6Records "rag1") = 0.8 := by
  have hmain : ∀ (records : List RecordDict) (target_rag : String),
      calculateQualityScore (validateStructure records target_rag) =
        roundPy3
          ((records.countP (recordValid target_rag) : ℚ) / (records.length : ℚ) * 0.6 +
           (records.countP (recordComplete (requiredFields target_rag)) : ℚ) /
              (records.length : ℚ) * 0.4) := by
    intro records target_rag
    cases records with
    | nil => simp [calculateQualityScore, validateStructure, validate, checkIntegrity]
    | cons a l => simp [calculateQualityScore, validateStructure, validate, checkIntegrity]
  have h2 : c6Records.countP (recordValid "rag1") = 2 := by decide
  have hcmp : c6Records.countP (recordComplete (requiredFields "rag1")) = 1 := by decide
  have hne : c6Records.isEmpty = false := by decide
  have hlen : c6Records.length = 2 := by decide
  refine ⟨hmain, ?_, ?_, ?_⟩
  · simp only [validateStructure, validate, hne, Bool.false_eq_true, if_false, h2, hlen]
    norm_num
  · simp only [validateStructure, checkIntegrity, hne, Bool.false_eq_true, if_false, hcmp, hlen]
    norm_num
  · rw [hmain, h2, hcmp, hlen]
    norm_num [roundPy3, round_eq]

/-- Indexing into `(List.enumFrom n l).map f`. -/
theorem get_enumFrom_map {α β : Type _} (f : ℕ × α → β) :
    ∀ (l : List α) (n i : ℕ) (hi : i < ((List.enumFrom n l).map f).length),
      ((List.enumFrom n l).map f).get ⟨i, hi⟩ =
        f (n + i, l.get ⟨i, by simpa using hi⟩) := by
  intro l
  induction l with
  | nil => intro n i hi; simp at hi
  | cons a t ih =>
    intro n i hi
    cases i with
    | zero => simp [List.enumFrom]
    | succ k =>
      have h' : k < ((List.enumFrom (n + 1) t).map f).length := by
        simpa using Nat.lt_of_succ_lt_succ (by simpa using hi)
      have := ih (n + 1) k h'
      simp only [List.enumFrom, List.map, List.get, this]
      congr 2
      omega

/-- C7: for any dataset, rule set (even empty), mapping and target schema, the
Transformation Applier emits exactly one record per row; each record's `id` is
the `i`-th draw of the uuid supply — hence independent of the source row's
contents — and when the supply has no collisions on the run, all emitted ids
are pairwise distinct. -/
theorem applier_totality_unique_ids (gen : ℕ → String) (records : List Row)
    (rules : RuleSet) (mapping : Mapping) (target_rag : String) :
    (applyTransformationRules gen records rules mapping target_rag).length =
      records.length ∧
    (∀ (i : ℕ) (hi : i < (applyTransformationRules gen records rules mapping target_rag).length),
      ((applyTransformationRules gen records rules mapping target_rag).get ⟨i, hi⟩).recId =
        gen i) ∧
    ((∀ i, i < records.length → ∀ j, j < records.length → gen i = gen j → i = j) →
      ∀ (i j : ℕ)
        (hi : i < (applyTransformationRules gen records rules mapping target_rag).length)
        (hj : j < (applyTransformationRules gen records rules mapping target_rag).length),
        i ≠ j →
        ((applyTransformationRules gen records rules mapping target_rag).get ⟨i, hi⟩).recId ≠
        ((applyTransformationRules gen records rules mapping target_rag).get ⟨j, hj⟩).recId) := by
  have hlen : (applyTransformationRules gen records rules mapping target_rag).length =
      records.length := by
    simp [applyTransformationRules]
  have hid : ∀ (i : ℕ)
      (hi : i < (applyTransformationRules gen records rules mapping target_rag).length),
      ((applyTransformationRules gen records rules mapping target_rag).get ⟨i, hi⟩).recId =
        gen i := by
    intro i hi
    show (((List.enumFrom 0 records).map _).get ⟨i, hi⟩).recId = gen i
    rw [get_enumFrom_map]
    by_cases h : target_rag = "rag1" <;>
      simp [h, StdRecord.recId, applyRulesToRag1, applyRulesToRag2]
  refine ⟨hlen, hid, ?_⟩
  intro hinj i j hi hj hne heq
  exact hne (hinj i (hlen ▸ hi) j (hlen ▸ hj)
    (by rw [← hid i hi, ← hid j hj]; exact heq))

/-- C7, witness: the theorem on a two-row dataset with the decimal-numeral
uuid supply, which is collision-free below the dataset length. -/
theorem applier_totality_witness :
    (applyTransformationRules (fun n => toString n)
      [[("a", Value.str "x")], []] [] [] "rag1").length = 2 ∧
    ((applyTransformationRules (fun n => toString n)
        [[("a", Value.str "x")], []] [] [] "rag1").get ⟨0, by decide⟩).recId ≠
      ((applyTransformationRules (fun n => toString n)
        [[("a", Value.str "x")], []] [] [] "rag1").get ⟨1, by decide⟩).recId := by
  obtain ⟨h1, -, h3⟩ := applier_totality_unique_ids (fun n => toString n)
    [[("a", Value.str "x")], []] [] [] "rag1"
  exact ⟨h1, h3 (by decide) 0 1 (by decide) (by decide) (by decide)⟩

/-- C8, counterexample: a `numero`-mapped column holding `"5"` and `"inf"` is
zeroed wholesale — `to_numeric` parses the infinity, `astype(int)` raises,
and the except branch assigns 0 to the entire column — so the valid cell
`"5"`, which parses to 5, does not receive its parsed integer, refuting the
per-cell reading of the claim. -/
theorem numero_inf_zeroes_column_cex :
    inferAndConvertTypes [("n", [Value.str "5", Value.str "inf"])]
        [("n", "numero")] "rag1" =
      [("n", [Value.int 0, Value.int 0])] ∧
    numeroCellConvert (Value.str "5") = Value.int 5 ∧
    (Value.int 0 : Value) ≠ Value.int 5 := by decide

/-- C8, amended: type coercion touches exactly the mapped columns — unmapped
columns pass through unchanged, every mapped non-`numero` column is
string-coerced with whole-cell `"nan"`/`"None"` artifacts scrubbed, and the
`numero` column is converted at column granularity: when every cell coerces
to a finite float (or `NaN`), each cell is parsed with invalid/missing cells
becoming 0 and finite values truncating to integer (exactly, inside the int64
range); when any cell parses to an infinity, the integer cast raises and the
except branch zeroes the entire column, valid cells included. -/
theorem type_coercion_mapped_only (df : Df) (mapping : Mapping)
    (target_rag : String) :
    ((inferAndConvertTypes df mapping target_rag).map Prod.fst = df.map Prod.fst) ∧
    (∀ c ∈ df, List.lookup c.1 mapping = Option.none →
      c ∈ inferAndConvertTypes df mapping target_rag) ∧
    (∀ c ∈ df, List.lookup c.1 mapping = some "numero" →
      (c.1, numeroColumnConvert c.2) ∈ inferAndConvertTypes df mapping target_rag) ∧
    (∀ c ∈ df, ∀ tf, List.lookup c.1 mapping = some tf → tf ≠ "numero" → tf ≠ "" →
      (c.1, c.2.map strScrub) ∈ inferAndConvertTypes df mapping target_rag) ∧
    (∀ vals : List Value,
      vals.all (fun v => ((pdToNumeric v).getD (PdNum.fin 0)).isFin) = true →
      numeroColumnConvert vals = vals.map numeroCellConvert) ∧
    (∀ vals : List Value,
      vals.all (fun v => ((pdToNumeric v).getD (PdNum.fin 0)).isFin) = false →
      numeroColumnConvert vals = vals.map (fun _ => Value.int 0)) ∧
    (∀ v, pdToNumeric v = Option.none → numeroCellConvert v = Value.int 0) ∧
    (∀ v q, pdToNumeric v = some (PdNum.fin q) → -(2 ^ 63) ≤ truncQ q →
      truncQ q < 2 ^ 63 → numeroCellConvert v = Value.int (truncQ q)) ∧
    (numeroCellConvert Value.nan = Value.int 0 ∧
      numeroCellConvert Value.none = Value.int 0 ∧
      strScrub Value.nan = Value.str "" ∧ strScrub Value.none = Value.str "" ∧
      strScrub (Value.str "nan") = Value.str "" ∧
      strScrub (Value.str "None") = Value.str "") ∧
    (∀ s, s ≠ "nan" → s ≠ "None" → strScrub (Value.str s) = Value.str s) := by
  refine ⟨?_, ?_, ?_, ?_, ?_, ?_, ?_, ?_, by decide, ?_⟩
  · simp only [inferAndConvertTypes, List.map_map]
    apply List.map_congr_left
    intro c _
    cases h : List.lookup c.1 mapping with
    | none => simp [h]
    | some tf =>
      by_cases h1 : tf = "" <;> by_cases h2 : tf = "numero" <;> simp [h, h1, h2]
  · intro c hc h
    exact List.mem_map.mpr ⟨c, hc, by simp [h]⟩
  · intro c hc h
    refine List.mem_map.mpr ⟨c, hc, ?_⟩
    simp [h]
  · intro c hc tf h h1 h2
    refine List.mem_map.mpr ⟨c, hc, ?_⟩
    simp [h, h1, h2]
  · intro vals h
    simp [numeroColumnConvert, h]
  · intro vals h
    simp [numeroColumnConvert, h]
  · intro v h
    simp only [numeroCellConvert, h, Option.getD]
    norm_num [astypeInt64, truncQ]
  · intro v q h h1 h2
    simp only [numeroCellConvert, h, Option.getD]
    rw [astypeInt64, if_pos ⟨h1, h2⟩]
  · intro s hs1 hs2
    simp [strScrub, pyStr, hs1, hs2]

/-- C8, witness: the theorem on a concrete frame — the unmapped column `a` is
untouched, the all-finite `numero` column parses `"7"` and zeroes
`"abc"`/`NaN` per cell, the `titulo` column scrubs `NaN` and keeps `"ok"`. -/
theorem type_coercion_witness :
    ("a", [Value.nan, Value.str "x"]) ∈ inferAndConvertTypes c8Df c8Mapping "rag1" ∧
    ("n", [Value.int 7, Value.int 0, Value.int 0]) ∈
      inferAndConvertTypes c8Df c8Mapping "rag1" ∧
    ("t", [Value.str "", Value.str "ok"]) ∈
      inferAndConvertTypes c8Df c8Mapping "rag1" ∧
    numeroCellConvert (Value.str "1e10") = Value.int 10000000000 := by
  obtain ⟨-, h2, h3, h4, h5, -, -, h8, -, -⟩ :=
    type_coercion_mapped_only c8Df c8Mapping "rag1"
  refine ⟨h2 ("a", [Value.nan, Value.str "x"]) (by decide) (by decide), ?_, ?_, ?_⟩
  · have hm := h3 ("n", [Value.str "7", Value.str "abc", Value.nan])
      (by decide) (by decide)
    have he : numeroColumnConvert [Value.str "7", Value.str "abc", Value.nan] =
        [Value.int 7, Value.int 0, Value.int 0] := by decide
    rw [he] at hm
    exact hm
  · have hm := h4 ("t", [Value.nan, Value.str "ok"]) (by decide) "titulo"
      (by decide) (by decide) (by decide)
    have he : [Value.nan, Value.str "ok"].map strScrub =
        [Value.str "", Value.str "ok"] := by decide
    rw [he] at hm
    exact hm
  · have hq : pdToNumeric (Value.str "1e10") =
        some (PdNum.fin (((1 : ℕ) : ℚ) * (10 : ℚ) ^ (10 : ℕ))) := rfl
    have hv : (((1 : ℕ) : ℚ) * (10 : ℚ) ^ (10 : ℕ)) = ((10000000000 : ℕ) : ℚ) := by
      push_cast
      norm_num
    have ht : truncQ (((1 : ℕ) : ℚ) * (10 : ℚ) ^ (10 : ℕ)) = 10000000000 := by
      unfold truncQ
      rw [if_pos (by rw [hv]; positivity), hv, Int.floor_natCast]
      norm_num
    have hr := h8 (Value.str "1e10") (((1 : ℕ) : ℚ) * (10 : ℚ) ^ (10 : ℕ)) hq
      (by rw [ht]; norm_num) (by rw [ht]; norm_num)
    rw [hr, ht]

/-- C9: the response assembly of `process` (STEP 6 / response construction)
sets `success` to the validator's `is_valid`, i.e. it would hold exactly when
at least 80% of the emitted records construct against the target schema — but
in the committed program that assembly is unreachable: every `process` run
raises `TypeError` at the STEP-5 `standardize` call (five positional
arguments against four parameters) and is re-raised as a fatal pipeline
error, so no run ever completes successfully. -/
theorem process_never_succeeds (llm : LLMOutcome) (gen : ℕ → String)
    (rows : List Row) (mapping : Mapping) (target_rag : String) :
    pipelineProcessStep5 llm gen rows mapping target_rag =
      Except.error ("Error en pipeline: " ++ standardizeArityError) ∧
    (∀ recs : List RecordDict,
      ((buildResponse recs target_rag).success = true ↔
        (0.8 : ℚ) ≤ (recs.countP (recordValid target_rag) : ℚ) / (recs.length : ℚ))) := by
  refine ⟨rfl, ?_⟩
  intro recs
  cases recs with
  | nil => simp [buildResponse, validateStructure, validate]; norm_num
  | cons a l =>
    simp [buildResponse, validateStructure, validate]

/-- A value list with no occurrence of `f` has `countP` zero for `f`. -/
theorem countP_eq_zero_of_not_contains (m : Mapping) (f : String)
    (h : (m.map (·.2)).contains f = false) :
    m.countP (fun p => p.2 == f) = 0 := by
  rw [List.countP_eq_zero]
  intro p hp hpf
  have hmem : f ∈ m.map (·.2) :=
    List.mem_map.mpr ⟨p, hp, by simpa using hpf⟩
  have hc : (m.map (fun x => x.2)).contains f = true := List.elem_iff.mpr hmem
  rw [hc] at h
  cases h

/-- One auto-mapping step keeps the long-text count at most `max` of the
previous count and 1: it only ever appends the long-text field when no entry
holds it yet. -/
theorem countP_autoMapStep (target_rag : String) (m : Mapping)
    (c : String × List Value) :
    (autoMapStep target_rag m c).countP (fun p => p.2 == longTextField target_rag) ≤
      max (m.countP (fun p => p.2 == longTextField target_rag)) 1 := by
  unfold autoMapStep
  split
  · exact le_max_left _ _
  · split
    · split
      · split
        · next h3 =>
          have hz : m.countP (fun p => p.2 == longTextField target_rag) = 0 := by
            apply countP_eq_zero_of_not_contains
            rw [show longTextField target_rag = "texto" by
              simp [longTextField, h3.1]]
            simpa using h3.2
          have hone : List.countP (fun p => p.2 == longTextField target_rag)
              [(c.1, "texto")] ≤ 1 :=
            le_trans (List.countP_le_length _) (by simp)
          rw [List.countP_append, hz, Nat.zero_add]
          exact le_trans hone (le_max_right _ _)
        · split
          · next h4 =>
            have hz : m.countP (fun p => p.2 == longTextField target_rag) = 0 := by
              apply countP_eq_zero_of_not_contains
              rw [show longTextField target_rag = "descripcion" by
                simp [longTextField]
                intro hr
                rw [hr] at h4
                exact absurd h4.1 (by decide)]
              simpa using h4.2
            have hone : List.countP (fun p => p.2 == longTextField target_rag)
                [(c.1, "descripcion")] ≤ 1 :=
              le_trans (List.countP_le_length _) (by simp)
            rw [List.countP_append, hz, Nat.zero_add]
            exact le_trans hone (le_max_right _ _)
          · exact le_max_left _ _
      · exact le_max_left _ _
    · exact le_max_left _ _

/-- The whole auto-mapping pass keeps the long-text count at most `max` of
the initial count and 1. -/
theorem countP_foldl_autoMapStep (target_rag : String) :
    ∀ (cols : List (String × List Value)) (m : Mapping),
      (List.foldl (autoMapStep target_rag) m cols).countP
          (fun p => p.2 == longTextField target_rag) ≤
        max (m.countP (fun p => p.2 == longTextField target_rag)) 1 := by
  intro cols
  induction cols with
  | nil => intro m; exact le_max_left _ _
  | cons c t ih =>
    intro m
    calc (List.foldl (autoMapStep target_rag) (autoMapStep target_rag m c) t).countP
          (fun p => p.2 == longTextField target_rag) ≤
        max ((autoMapStep target_rag m c).countP
          (fun p => p.2 == longTextField target_rag)) 1 := ih _
      _ ≤ max (max (m.countP (fun p => p.2 == longTextField target_rag)) 1) 1 :=
        max_le_max (countP_autoMapStep target_rag m c) le_rfl
      _ = max (m.countP (fun p => p.2 == longTextField target_rag)) 1 := by
        rw [max_assoc]; simp

/-- C2, counterexample: with columns `body` and `content`, the RAG1 keyword
phase maps both to `texto`, so the produced mapping assigns two source
columns to the long-text field, refuting the at-most-one guarantee. -/
theorem long_text_multi_map_cex :
    generateColumnMapping [("body", []), ("content", [])] "rag1" =
      [("body", "texto"), ("content", "texto")] ∧
    (generateColumnMapping [("body", []), ("content", [])] "rag1").countP
      (fun p => p.2 == longTextField "rag1") = 2 := by decide

/-- C2, amended: only the long-text auto-mapping heuristic guarantees at most
one assignment — when the keyword phase maps no column to the long-text
field, the final mapping assigns it to at most one column; keyword matching
itself may claim it for several columns. -/
theorem long_text_heuristic_at_most_one (df : Df) (target_rag : String)
    (h : (keywordPhase
        (if target_rag = "rag1" then rag1MappingRules else rag2MappingRules)
        (df.map Prod.fst)).countP (fun p => p.2 == longTextField target_rag) = 0) :
    (generateColumnMapping df target_rag).countP
      (fun p => p.2 == longTextField target_rag) ≤ 1 := by
  unfold generateColumnMapping
  refine le_trans (countP_foldl_autoMapStep target_rag df _) ?_
  rw [h]
  simp

/-- C2, witness: a single keyword-unmatched 60-character column; the keyword
phase claims nothing, so the heuristic-extended mapping holds at most one
long-text assignment (here exactly one: `notes → texto`). -/
theorem long_text_heuristic_witness :
    generateColumnMapping c2WitnessDf "rag1" = [("notes", "texto")] ∧
    (generateColumnMapping c2WitnessDf "rag1").countP
      (fun p => p.2 == longTextField "rag1") ≤ 1 := by
  constructor
  · have h : sampleMeanLen [Value.str (String.mk (List.replicate 60 'a'))] =
        some 60 := by
      simp only [sampleMeanLen]
      norm_num [pyIsNA, pyStr]
    simp only [c2WitnessDf, generateColumnMapping, keywordPhase, autoMapStep,
      List.foldl, List.filterMap, List.map]
    norm_num [h, pyLower, strContains]
    decide
  · exact long_text_heuristic_at_most_one c2WitnessDf "rag1" (by decide)

/-- Substring transitivity: a column containing `subcategoria` contains
`categoria`. -/
theorem strContains_subcategoria {s : String}
    (h : strContains "subcategoria" s = true) :
    strContains "categoria" s = true := by
  unfold strContains at h ⊢
  exact decide_eq_true
    ((show "categoria".toList <:+: "subcategoria".toList by decide).trans
      (of_decide_eq_true h))

/-- Substring transitivity: a column containing `subcategory` contains
`category`. -/
theorem strContains_subcategory {s : String}
    (h : strContains "subcategory" s = true) :
    strContains "category" s = true := by
  unfold strContains at h ⊢
  exact decide_eq_true
    ((show "category".toList <:+: "subcategory".toList by decide).trans
      (of_decide_eq_true h))

/-- If some element of the first segment satisfies the predicate, `find?` on
the concatenation returns an element of the first segment. -/
theorem find?_mem_of_exists_prefix {α : Type _} (p : α → Bool) :
    ∀ (l₁ l₂ : List α) (a : α), (∃ x ∈ l₁, p x = true) →
      (l₁ ++ l₂).find? p = some a → a ∈ l₁ := by
  intro l₁
  induction l₁ with
  | nil =>
    intro l₂ a h
    rcases h with ⟨x, hx, -⟩
    simp at hx
  | cons b t ih =>
    intro l₂ a hex hf
    cases hpb : p b with
    | true =>
      simp only [List.cons_append, List.find?_cons, hpb] at hf
      have hb := Option.some.inj hf
      subst hb
      exact List.mem_cons_self _ _
    | false =>
      simp only [List.cons_append, List.find?_cons, hpb] at hf
      rcases hex with ⟨x, hx, hpx⟩
      rcases List.mem_cons.mp hx with rfl | hx'
      · rw [hpx] at hpb; cases hpb
      · exact List.mem_cons_of_mem _ (ih l₂ a ⟨x, hx', hpx⟩ hf)

/-- The keyword scan over the evaluated RAG2 rule table never selects a rule
whose target is `subcategoria`: any column matching a `subcategoria`-valued
key already matched `categoria`/`category` earlier in the table. -/
theorem rag2_find_not_subcategoria (col : String) (kv : String × String)
    (h : rag2MappingRules.find? (fun r => strContains r.1 (pyLower col)) = some kv) :
    kv.2 ≠ "subcategoria" := by
  have hsplit : rag2MappingRules = rag2RulesHead ++ rag2RulesTail := by decide
  by_cases hcat : strContains "category" (pyLower col) = true ∨
      strContains "categoria" (pyLower col) = true
  · rw [hsplit] at h
    have hmem : kv ∈ rag2RulesHead := by
      rcases hcat with hc | hc
      · exact find?_mem_of_exists_prefix _ _ _ _
          ⟨("category", "categoria"), by decide, hc⟩ h
      · exact find?_mem_of_exists_prefix _ _ _ _
          ⟨("categoria", "categoria"), by decide, hc⟩ h
    exact (by decide : ∀ x ∈ rag2RulesHead, x.2 ≠ "subcategoria") kv hmem
  · push_neg at hcat
    have h1 : strContains "subcategory" (pyLower col) = false := by
      cases hx : strContains "subcategory" (pyLower col)
      · rfl
      · exact absurd (strContains_subcategory hx) (by simp [hcat.1])
    have h2 : strContains "subcategoria" (pyLower col) = false := by
      cases hx : strContains "subcategoria" (pyLower col)
      · rfl
      · exact absurd (strContains_subcategoria hx) (by simp [hcat.2])
    have hmem := List.mem_of_find?_eq_some h
    have hp := List.find?_some h
    intro hkv
    have hkey : ∀ x ∈ rag2MappingRules, x.2 = "subcategoria" →
        x.1 = "subcategoria" ∨ x.1 = "subcategory" := by decide
    rcases hkey kv hmem hkv with h' | h'
    · rw [h'] at hp
      exact absurd hp (by simp [h2])
    · rw [h'] at hp
      exact absurd hp (by simp [h1])

/-- The keyword phase for RAG2 never assigns `subcategoria`. -/
theorem keywordPhase_rag2_not_subcategoria (cols : List String) :
    ∀ p ∈ keywordPhase rag2MappingRules cols, p.2 ≠ "subcategoria" := by
  intro p hp
  rcases List.mem_filterMap.mp hp with ⟨col, -, hf⟩
  rcases Option.map_eq_some'.mp hf with ⟨kv, hkv, hpe⟩
  have := rag2_find_not_subcategoria col kv hkv
  rw [← hpe]
  exact this

/-- One auto-mapping step leaves the mapping unchanged or appends a
`texto`/`descripcion` assignment. -/
theorem autoMapStep_cases (target_rag : String) (m : Mapping)
    (c : String × List Value) :
    autoMapStep target_rag m c = m ∨
      autoMapStep target_rag m c = m ++ [(c.1, "texto")] ∨
      autoMapStep target_rag m c = m ++ [(c.1, "descripcion")] := by
  unfold autoMapStep
  split
  · exact Or.inl rfl
  · split
    · split
      · split
        · exact Or.inr (Or.inl rfl)
        · split
          · exact Or.inr (Or.inr rfl)
          · exact Or.inl rfl
      · exact Or.inl rfl
    · exact Or.inl rfl

/-- The auto-mapping pass never introduces a `subcategoria` assignment. -/
theorem foldl_autoMapStep_not_subcategoria (target_rag : String) :
    ∀ (cols : List (String × List Value)) (m : Mapping),
      (∀ p ∈ m, p.2 ≠ "subcategoria") →
      ∀ p ∈ List.foldl (autoMapStep target_rag) m cols, p.2 ≠ "subcategoria" := by
  intro cols
  induction cols with
  | nil => intro m hm; simpa using hm
  | cons c t ih =>
    intro m hm
    apply ih
    intro p hp
    rcases autoMapStep_cases target_rag m c with h | h | h <;> rw [h] at hp
    · exact hm p hp
    · rcases List.mem_append.mp hp with h' | h'
      · exact hm p h'
      · simp only [List.mem_singleton] at h'
        rw [h']
        simp
    · rcases List.mem_append.mp hp with h' | h'
      · exact hm p h'
      · simp only [List.mem_singleton] at h'
        rw [h']
        simp

/-- C10: the RAG2 rule table evaluates with the duplicate keys `categoria` and
`category` at their early positions holding the later value `categoria`, and
consequently the column mapper never assigns any column to `subcategoria` —
for every input frame that field can only come from an LLM rule or its static
default. -/
theorem subcategoria_never_mapped :
    rag2MappingRules = rag2RulesHead ++ rag2RulesTail ∧
    List.lookup "categoria" rag2MappingRules = some "categoria" ∧
    List.lookup "category" rag2MappingRules = some "categoria" ∧
    ∀ (df : Df) (p : String × String), p ∈ generateColumnMapping df "rag2" →
      p.2 ≠ "subcategoria" := by
  refine ⟨by decide, by decide, by decide, ?_⟩
  intro df p hp
  unfold generateColumnMapping at hp
  rw [if_neg (by decide : ¬ ("rag2" : String) = "rag1")] at hp
  exact foldl_autoMapStep_not_subcategoria "rag2" df _
    (keywordPhase_rag2_not_subcategoria _) p hp

/-- C10, witness: the theorem applied to a frame whose only column is named
`subcategoria`; the mapper sends it to `categoria`, not `subcategoria`. -/
theorem subcategoria_never_mapped_witness :
    ("subcategoria", "categoria") ∈
      generateColumnMapping [("subcategoria", [])] "rag2" ∧
    ("categoria" : String) ≠ "subcategoria" :=
  ⟨by decide, subcategoria_never_mapped.2.2.2 [("subcategoria", [])]
    ("subcategoria", "categoria") (by decide)⟩

end RTS
